import Mathlib

set_option linter.unusedVariables false

/- Shallow embedding of the pipeline-history migration in
   src/engine/api/pipeline_parameter.go (functions MigratePipelineHistory and
   getPipelineBuild, lines 800-1038), together with the pieces of its
   environment (legacy table, target table, Go encoding/json semantics) that
   the functions use.  Machine integers are modelled as Int (the ids and
   versions involved are small), timestamps as Nat, and the raw JSON payload
   as an already-parsed `Json` value wrapped in Option (`none` standing for a
   payload that is not valid JSON, on which Go's json.Unmarshal fails). -/

/-- JSON values as produced by Go's encoding/json when decoding into
`interface\x7b\x7d`.  Numbers are modelled as `Int`: every numeric field the
migration reads (ids, versions, build numbers) is integral. -/
inductive Json where
  | null
  | bool (b : Bool)
  | num (n : Int)
  | str (s : String)
  | arr (xs : List Json)
  | obj (fields : List (String × Json))

/-- Field lookup in a decoded JSON object, mirroring a Go map index
`m[k]` on the `map[string]interface\x7b\x7d` produced by json.Unmarshal
(payloads in this development have distinct keys, so first-binding lookup
agrees with the Go map). -/
def jget (fields : List (String × Json)) (k : String) : Option Json :=
  fields.lookup k

def Json.asArr : Json → Option (List Json)
  | .arr xs => some xs
  | _ => none

def Json.asNum : Json → Option Int
  | .num n => some n
  | _ => none

def Json.asStr : Json → Option String
  | .str s => some s
  | _ => none

/- JSON key names used by the migration (string literals are bound to
   constants once and reused). -/

def keyId : String := "id"
def keyStages : String := "stages"
def keyBuilds : String := "builds"
def keyStart : String := "start"
def keyDone : String := "done"
def keyArgs : String := "args"
def keyStatus : String := "status"
def keyActionName : String := "action_name"
def keyPipelineActionId : String := "pipeline_action_id"
def keyName : String := "name"
def keyTyp : String := "type"
def keyValue : String := "value"
def keyPipeline : String := "pipeline"
def keyBuildNumber : String := "build_number"
def keyVersion : String := "version"
def keyParameters : String := "parameters"
def keyApplication : String := "application"
def keyEnvironment : String := "environment"
def keyTrigger : String := "trigger"
def keyManualTrigger : String := "manual_trigger"
def keyScheduledTrigger : String := "scheduled_trigger"
def keyVcsBranch : String := "vcs_changes_branch"
def keyVcsHash : String := "vcs_changes_hash"
def keyVcsAuthor : String := "vcs_changes_author"
def keyTriggeredBy : String := "triggered_by"
def keyPreviousPipelineBuild : String := "previous_pipeline_build"

/-- Modelled from the spec: the sdk status constant StatusSuccess rendered by
Status.String(); the spec (section 3) names Success the non-failed stage
status.  The sdk package is not under src/, so the status type is modelled as
its string form. -/
def statusSuccess : String := "Success"

/-- Modelled from the spec: the sdk status constant StatusFail rendered by
Status.String(); the spec calls "Fail" the fail sentinel. -/
def statusFail : String := "Fail"

/-- Modelled from the spec: sdk.Parameter (name, type, value), section 3 of
the spec.  The sdk package is not under src/. -/
structure Parameter where
  name : String
  typ : String
  value : String
deriving DecidableEq

/-- Modelled from the spec: the sdk.Action part of a job that the migration
touches (bString["action_name"] is stored in Job.Action.Name). -/
structure SdkAction where
  name : String
deriving DecidableEq

/-- Modelled from the spec: sdk.Job as used by getPipelineBuild -- action,
enabled flag, pipeline-action ref (spec section 3). -/
structure Job where
  action : SdkAction
  enabled : Bool
  pipelineActionID : Int
deriving DecidableEq

/-- Modelled from the spec: sdk.PipelineBuildJob as constructed in
getPipelineBuild (src lines 974-989): id, parameters, owning build id, model,
status string, nested Job, start/done timestamps. -/
structure PipelineBuildJob where
  id : Int
  parameters : List Parameter
  pipelineBuildID : Int
  model : String
  status : String
  job : Job
  start : Nat
  done : Nat
deriving DecidableEq

/-- Modelled from the spec: sdk.Stage -- id, name, derived status, ordered
job lists (spec section 3).  The status is kept in its string form. -/
structure Stage where
  id : Int
  name : String
  status : String
  jobs : List Job
  pipelineBuildJobs : List PipelineBuildJob
deriving DecidableEq

/-- Modelled from the spec: the sdk.User reference read through
pb.Trigger.TriggeredBy.ID (src line 1015). -/
structure User where
  id : Int
deriving DecidableEq

/-- Modelled from the spec: the pipeline reference read through
pb.Pipeline.ID (src line 864). -/
structure PipelineRef where
  id : Int
deriving DecidableEq

/-- Modelled from the spec: the application reference read through
pb.Application.ID (src line 865). -/
structure ApplicationRef where
  id : Int
deriving DecidableEq

/-- Modelled from the spec: the environment reference read through
pb.Environment.ID (src line 865). -/
structure EnvironmentRef where
  id : Int
deriving DecidableEq

/-- Modelled from the spec: the parent build reference read through
pb.PreviousPipelineBuild.ID (src line 1008); only the id is used, so the
nested build is modelled as its id. -/
structure PrevBuildRef where
  id : Int
deriving DecidableEq

/-- Modelled from the spec: sdk.PipelineBuildTrigger as read by the insert
(src lines 864-867): manual/scheduled flags, VCS branch/hash/author, and the
optional triggering user. -/
structure Trigger where
  manualTrigger : Bool
  scheduledTrigger : Bool
  vcsChangesBranch : String
  vcsChangesHash : String
  vcsChangesAuthor : String
  triggeredBy : Option User
deriving DecidableEq

/-- Modelled from the spec: sdk.PipelineBuild, the typed skeleton the legacy
payload is unmarshalled into (spec section 3: Build).  Start and done are
modelled as integral timestamps. -/
structure PipelineBuild where
  id : Int
  pipeline : PipelineRef
  application : ApplicationRef
  environment : EnvironmentRef
  buildNumber : Int
  version : Int
  status : String
  parameters : List Parameter
  start : Int
  done : Int
  trigger : Trigger
  previousPipelineBuild : Option PrevBuildRef
  stages : List Stage
deriving DecidableEq

/-- The zero value of the trigger struct (Go zero value). -/
def zeroTrigger : Trigger :=
  { manualTrigger := false, scheduledTrigger := false, vcsChangesBranch := ""
    vcsChangesHash := "", vcsChangesAuthor := "", triggeredBy := none }

/-- The zero value of sdk.PipelineBuild (what json.Unmarshal leaves when a
field is absent from the payload). -/
def zeroPipelineBuild : PipelineBuild :=
  { id := 0, pipeline := ⟨0⟩, application := ⟨0⟩, environment := ⟨0⟩
    buildNumber := 0, version := 0, status := "", parameters := []
    start := 0, done := 0, trigger := zeroTrigger
    previousPipelineBuild := none, stages := [] }

/- Go json.Unmarshal semantics for the typed skeleton.  In Go, a struct field
   whose key is absent from the payload, or whose value is JSON null, keeps
   its zero value and causes no error; a present value of the wrong JSON type
   makes Unmarshal return an error. -/

/-- Decode a JSON field into a Go int64 struct field: absent or null leaves
the zero value, a number is taken as is, anything else is an unmarshal
error. -/
def decIntField (fields : List (String × Json)) (k : String) : Except Unit Int :=
  match jget fields k with
  | none => .ok 0
  | some .null => .ok 0
  | some (.num n) => .ok n
  | some _ => .error ()

/-- Decode a JSON field into a Go string struct field (absent or null keeps
the empty string). -/
def decStrField (fields : List (String × Json)) (k : String) : Except Unit String :=
  match jget fields k with
  | none => .ok ""
  | some .null => .ok ""
  | some (.str s) => .ok s
  | some _ => .error ()

/-- Decode a JSON field into a Go bool struct field (absent or null keeps
false). -/
def decBoolField (fields : List (String × Json)) (k : String) : Except Unit Bool :=
  match jget fields k with
  | none => .ok false
  | some .null => .ok false
  | some (.bool b) => .ok b
  | some _ => .error ()

/-- Go unmarshal of a single sdk.Parameter value: null gives the zero
parameter, an object projects the name/type/value strings, anything else is
an unmarshal error. -/
def unmarshalParameter (j : Json) : Except Unit Parameter :=
  match j with
  | .null => .ok ⟨"", "", ""⟩
  | .obj fs =>
    match decStrField fs keyName with
    | .error e => .error e
    | .ok nm =>
      match decStrField fs keyTyp with
      | .error e => .error e
      | .ok ty =>
        match decStrField fs keyValue with
        | .error e => .error e
        | .ok va => .ok ⟨nm, ty, va⟩
  | _ => .error ()

/-- Go unmarshal of a list of sdk.Parameter values, first error wins. -/
def unmarshalParameterList : List Json → Except Unit (List Parameter)
  | [] => .ok []
  | j :: rest =>
    match unmarshalParameter j with
    | .error e => .error e
    | .ok p =>
      match unmarshalParameterList rest with
      | .error e => .error e
      | .ok ps => .ok (p :: ps)

/-- Go unmarshal into []sdk.Parameter: null leaves a nil slice, an array
decodes elementwise, anything else is an unmarshal error.  This is the
decoder applied at src lines 963-972 to the re-serialized dynamic "args"
value of a job entry. -/
def decodeParameters (j : Json) : Except Unit (List Parameter) :=
  match j with
  | .null => .ok []
  | .arr xs => unmarshalParameterList xs
  | _ => .error ()

/-- Modelled from the spec: Go unmarshal of one sdk.Stage skeleton entry.
The sdk struct definitions are not under src/; per the spec (sections 2 and
4.4) the typed skeleton carries the stage identity while the per-stage job
lists live in the dynamic tree, so the skeleton decode reads the id and name
fields and leaves the job lists empty. -/
def unmarshalStage (j : Json) : Except Unit Stage :=
  match j with
  | .null => .ok ⟨0, "", "", [], []⟩
  | .obj fs =>
    match decIntField fs keyId with
    | .error e => .error e
    | .ok sid =>
      match decStrField fs keyName with
      | .error e => .error e
      | .ok nm => .ok ⟨sid, nm, "", [], []⟩
  | _ => .error ()

/-- Go unmarshal of the skeleton stage list, first error wins. -/
def unmarshalStageList : List Json → Except Unit (List Stage)
  | [] => .ok []
  | j :: rest =>
    match unmarshalStage j with
    | .error e => .error e
    | .ok s =>
      match unmarshalStageList rest with
      | .error e => .error e
      | .ok ss => .ok (s :: ss)

/-- Go unmarshal of the optional triggering user (pointer field: absent or
null leaves nil). -/
def decUserField (fields : List (String × Json)) (k : String) : Except Unit (Option User) :=
  match jget fields k with
  | none => .ok none
  | some .null => .ok none
  | some (.obj ufs) =>
    match decIntField ufs keyId with
    | .error e => .error e
    | .ok uid => .ok (some ⟨uid⟩)
  | some _ => .error ()

/-- Go unmarshal of a nested ref object carrying an id (pipeline,
application, environment): absent or null keeps the zero ref. -/
def decRefIdField (fields : List (String × Json)) (k : String) : Except Unit Int :=
  match jget fields k with
  | none => .ok 0
  | some .null => .ok 0
  | some (.obj rfs) => decIntField rfs keyId
  | some _ => .error ()

/-- Go unmarshal of the optional parent build pointer (only its id is
retained). -/
def decPrevBuildField (fields : List (String × Json)) : Except Unit (Option PrevBuildRef) :=
  match jget fields keyPreviousPipelineBuild with
  | none => .ok none
  | some .null => .ok none
  | some (.obj pfs) =>
    match decIntField pfs keyId with
    | .error e => .error e
    | .ok pid => .ok (some ⟨pid⟩)
  | some _ => .error ()

/-- Go unmarshal of the trigger struct field. -/
def decTriggerField (fields : List (String × Json)) : Except Unit Trigger :=
  match jget fields keyTrigger with
  | none => .ok zeroTrigger
  | some .null => .ok zeroTrigger
  | some (.obj tfs) =>
    match decBoolField tfs keyManualTrigger with
    | .error e => .error e
    | .ok mt =>
      match decBoolField tfs keyScheduledTrigger with
      | .error e => .error e
      | .ok sched =>
        match decStrField tfs keyVcsBranch with
        | .error e => .error e
        | .ok br =>
          match decStrField tfs keyVcsHash with
          | .error e => .error e
          | .ok hs =>
            match decStrField tfs keyVcsAuthor with
            | .error e => .error e
            | .ok au =>
              match decUserField tfs keyTriggeredBy with
              | .error e => .error e
              | .ok tb =>
                .ok { manualTrigger := mt, scheduledTrigger := sched
                      vcsChangesBranch := br, vcsChangesHash := hs
                      vcsChangesAuthor := au, triggeredBy := tb }
  | some _ => .error ()

/-- Go unmarshal of the parameter list field of the skeleton. -/
def decParametersField (fields : List (String × Json)) : Except Unit (List Parameter) :=
  match jget fields keyParameters with
  | none => .ok []
  | some v => decodeParameters v

/-- Go unmarshal of the skeleton stage list field. -/
def decStagesField (fields : List (String × Json)) : Except Unit (List Stage) :=
  match jget fields keyStages with
  | none => .ok []
  | some .null => .ok []
  | some (.arr xs) => unmarshalStageList xs
  | some _ => .error ()

/-- json.Unmarshal([]byte(data), &pb) at src line 900: decode the payload
into the typed sdk.PipelineBuild skeleton.  A JSON null leaves the zero
struct; a non-object top level is an unmarshal error; inside an object every
field follows Go's absent-or-null-keeps-zero rule. -/
def goUnmarshalPB (j : Json) : Except Unit PipelineBuild :=
  match j with
  | .null => .ok zeroPipelineBuild
  | .obj fs =>
    match decIntField fs keyId with
    | .error e => .error e
    | .ok bid =>
      match decRefIdField fs keyPipeline with
      | .error e => .error e
      | .ok pipid =>
        match decRefIdField fs keyApplication with
        | .error e => .error e
        | .ok appid =>
          match decRefIdField fs keyEnvironment with
          | .error e => .error e
          | .ok envid =>
            match decIntField fs keyBuildNumber with
            | .error e => .error e
            | .ok bn =>
              match decIntField fs keyVersion with
              | .error e => .error e
              | .ok ver =>
                match decStrField fs keyStatus with
                | .error e => .error e
                | .ok st =>
                  match decParametersField fs with
                  | .error e => .error e
                  | .ok ps =>
                    match decIntField fs keyStart with
                    | .error e => .error e
                    | .ok sta =>
                      match decIntField fs keyDone with
                      | .error e => .error e
                      | .ok dn =>
                        match decTriggerField fs with
                        | .error e => .error e
                        | .ok tg =>
                          match decPrevBuildField fs with
                          | .error e => .error e
                          | .ok prev =>
                            match decStagesField fs with
                            | .error e => .error e
                            | .ok ss =>
                              .ok { id := bid, pipeline := ⟨pipid⟩
                                    application := ⟨appid⟩
                                    environment := ⟨envid⟩
                                    buildNumber := bn, version := ver
                                    status := st, parameters := ps
                                    start := sta, done := dn, trigger := tg
                                    previousPipelineBuild := prev
                                    stages := ss }
  | _ => .error ()

/-- json.Unmarshal([]byte(data), &mapPB) at src line 919: decode the payload
into the dynamic map[string]Json tree.  Null leaves the map nil (modelled as
the empty field list); a non-object top level is an unmarshal error. -/
def goUnmarshalMap (j : Json) : Except Unit (List (String × Json)) :=
  match j with
  | .null => .ok []
  | .obj fs => .ok fs
  | _ => .error ()

/- The dynamic stage reconstruction of getPipelineBuild, src lines 929-996.
   A failed Go type assertion (v.(T) on a value of the wrong type, or on the
   nil read of an absent map key) panics; such a panic propagates out of the
   function, so it is modelled as a distinct error constructor. -/

/-- Errors of the dynamic rebuild step: a Go type-assertion panic, the
stage-to-update-not-found early return, or a parameter unmarshal error. -/
inductive RebuildErr where
  | goPanic
  | stageNotFound
  | paramErr
deriving DecidableEq

/-- The stage id read from a dynamic stage entry:
jsonStageString.(map[string]interface value) followed by
stageString["id"].(float64) at src lines 933-935.  `none` means one of the
two type assertions panics. -/
def stageEntryId (e : Json) : Option Int :=
  match e with
  | .obj fs =>
    match jget fs keyId with
    | some (.num n) => some n
    | _ => none
  | _ => none

/-- The builds array read from a dynamic stage entry:
stageString["builds"].([]interface value) at src line 952.  `none` means the
type assertion panics. -/
def stageEntryBuilds (e : Json) : Option (List Json) :=
  match e with
  | .obj fs =>
    match jget fs keyBuilds with
    | some (.arr xs) => some xs
    | _ => none
  | _ => none

/-- The dynamic "args" value of a job entry; an absent key reads as the nil
interface, which marshals to JSON null (src line 963). -/
def argsOf (fs : List (String × Json)) : Json :=
  (jget fs keyArgs).getD Json.null

/-- Construction of one sdk.PipelineBuildJob from a dynamic job entry, src
lines 952-989.  The source reads the textual start/done fields, then calls
time.Now() and Format on them: Format renders a time as a string and its
result is discarded, so the stored Start and Done are the current wall-clock
`now`, not parsed values.  The args value is re-marshalled and decoded into
the typed parameter list (the marshal of a value produced by json decoding
cannot fail and is dropped); a shape mismatch there is a returned error,
every failed type assertion is a panic. -/
def buildToJob (pbID : Int) (now : Nat) (b : Json) : Except RebuildErr PipelineBuildJob :=
  match b with
  | .obj fs =>
    match jget fs keyStart with
    | some (.str _) =>
      match jget fs keyDone with
      | some (.str _) =>
        match decodeParameters (argsOf fs) with
        | .error _ => .error .paramErr
        | .ok params =>
          match jget fs keyId with
          | some (.num jid) =>
            match jget fs keyStatus with
            | some (.str st) =>
              match jget fs keyActionName with
              | some (.str an) =>
                match jget fs keyPipelineActionId with
                | some (.num paid) =>
                  .ok { id := jid, parameters := params
                        pipelineBuildID := pbID, model := "", status := st
                        job := { action := ⟨an⟩, enabled := true
                                 pipelineActionID := paid }
                        start := now, done := now }
                | _ => .error .goPanic
              | _ => .error .goPanic
            | _ => .error .goPanic
          | _ => .error .goPanic
      | _ => .error .goPanic
    | _ => .error .goPanic
  | _ => .error .goPanic

/-- The builds loop of one stage entry (src lines 952-992), first failure
wins. -/
def buildsToJobs (pbID : Int) (now : Nat) : List Json → Except RebuildErr (List PipelineBuildJob)
  | [] => .ok []
  | b :: rest =>
    match buildToJob pbID now b with
    | .error e => .error e
    | .ok j =>
      match buildsToJobs pbID now rest with
      | .error e => .error e
      | .ok js => .ok (j :: js)

/-- The job-list reset applied to every skeleton stage matched by id in the
find loop, src lines 941-943. -/
def resetStage (s : Stage) : Stage :=
  { s with jobs := [], pipelineBuildJobs := [] }

/-- Attachment of the rebuilt jobs to a (previously reset) stage: the append
loop at src lines 990-991 leaves Jobs and PipelineBuildJobs holding exactly
the rebuilt entries, pairwise. -/
def attachJobs (s : Stage) (jobs : List PipelineBuildJob) : Stage :=
  { s with jobs := jobs.map (·.job), pipelineBuildJobs := jobs }

/-- Whether some skeleton stage carries the given id (the
stageToUpdate-nil test after the find loop, src line 947). -/
def anyId (ss : List Stage) (sid : Int) : Bool :=
  ss.any (fun s => s.id == sid)

/-- Effect of one dynamic stage entry on the skeleton stage list: the find
loop (src lines 939-945) resets the job lists of every stage whose id
matches, and keeps a pointer to the last match, to which the rebuilt jobs
are then attached. -/
def resetAndAttach (ss : List Stage) (sid : Int) (jobs : List PipelineBuildJob) : List Stage :=
  match ss with
  | [] => []
  | s :: rest =>
    (if s.id == sid then
      (if anyId rest sid then resetStage s else attachJobs (resetStage s) jobs)
     else s) :: resetAndAttach rest sid jobs

/-- Processing of one dynamic stage entry, src lines 932-992: parse the
entry's id (panic on shape mismatch), fail with the stage-not-found early
return when no skeleton stage matches, otherwise parse the builds array
(panic on shape mismatch), rebuild its jobs and splice them into the
matched stage. -/
def processStageEntry (pbID : Int) (now : Nat) (ss : List Stage) (e : Json) :
    Except RebuildErr (List Stage) :=
  match stageEntryId e with
  | none => .error .goPanic
  | some sid =>
    if anyId ss sid then
      match stageEntryBuilds e with
      | none => .error .goPanic
      | some builds =>
        match buildsToJobs pbID now builds with
        | .error e => .error e
        | .ok jobs => .ok (resetAndAttach ss sid jobs)
    else .error .stageNotFound

/-- The loop over the dynamic stage entries, src line 932. -/
def rebuildStages (pbID : Int) (now : Nat) (ss : List Stage) :
    List Json → Except RebuildErr (List Stage)
  | [] => .ok ss
  | e :: rest =>
    match processStageEntry pbID now ss e with
    | .error er => .error er
    | .ok ss' => rebuildStages pbID now ss' rest

/- Database model: the deprecated pipeline_history_old table and the target
   pipeline_build table.  Legacy rows are read-only source data. -/

/-- One row of pipeline_history_old: the candidate key pipeline_build_id,
the grouping columns, the version, and the raw JSON snapshot (`none` for a
payload that is not valid JSON). -/
structure LegacyRow where
  pipelineBuildID : Int
  appID : Int
  pipID : Int
  envID : Int
  branch : Option String
  version : Int
  data : Option Json

/-- One row of the target pipeline_build table, with the columns of the
INSERT at src lines 858-867 (the args and stages JSON blobs are kept as the
values they serialize). -/
structure BuildRow where
  id : Int
  pipelineID : Int
  buildNumber : Int
  version : Int
  status : String
  args : List Parameter
  start : Int
  applicationID : Int
  environmentID : Int
  done : Int
  manualTrigger : Bool
  triggeredBy : Option Int
  parentPipelineBuildID : Option Int
  vcsChangesBranch : String
  vcsChangesHash : String
  vcsChangesAuthor : String
  scheduledTrigger : Bool
  stages : List Stage

/-- The two stores the migration touches. -/
structure Db where
  historyOld : List LegacyRow
  pipelineBuild : List BuildRow

/-- SELECT data FROM pipeline_history_old WHERE pipeline_build_id = $1
FOR UPDATE NOWAIT (src line 891): the payload of the first matching row, or
`none` when the row is absent (the NOWAIT lock failure of a concurrent run
surfaces as the same returned scan error and is outside this sequential
model). -/
def selectHistoryData (db : Db) (hid : Int) : Option (Option Json) :=
  (db.historyOld.find? (fun r => r.pipelineBuildID == hid)).map (·.data)

/-- SELECT count(1) FROM pipeline_build WHERE id = $1 (src line 906). -/
def countPipelineBuild (db : Db) (bid : Int) : Nat :=
  (db.pipelineBuild.filter (fun r => r.id == bid)).length

/-- Errors getPipelineBuild returns through its sixth result (as opposed to
Go panics, which escape the function). -/
inductive MigErr where
  | queryErr
  | decodeErr
  | paramDecodeErr
deriving DecidableEq

/-- The six results of getPipelineBuild (src line 889): the reconstructed
build, the marshalled args blob, the nullable parent and user ids, the
marshalled stages blob, and the returned error. -/
structure GetPBResult where
  pb : Option PipelineBuild
  args : Option (List Parameter)
  parentID : Option Int
  userID : Option Int
  stagesJSON : Option (List Stage)
  err : Option MigErr

/-- The all-nil return (duplicate build, missing stages key, or stage to
update not found): six nils, in particular a nil error. -/
def gpbNilResult : GetPBResult :=
  ⟨none, none, none, none, none, none⟩

/-- The nil-values-plus-error return used on every failure path of
getPipelineBuild. -/
def gpbErrResult (e : MigErr) : GetPBResult :=
  ⟨none, none, none, none, none, some e⟩

/-- The status derivation loop body for one stage, src lines 1022-1028:
Success unless some pipeline build job carries the fail sentinel (the source
breaks at the first such job). -/
def stageStatusOf : List PipelineBuildJob → String
  | [] => statusSuccess
  | j :: rest => if j.status == statusFail then statusFail else stageStatusOf rest

/-- The status derivation pass at src lines 1019-1030 applied to one
stage. -/
def setStageStatus (s : Stage) : Stage :=
  { s with status := stageStatusOf s.pipelineBuildJobs }

/-- The tail of getPipelineBuild after the stages were rebuilt, src lines
998-1037: marshal the skeleton parameters, project the nullable parent and
user ids, derive every stage status, marshal the stages, and return the
build (the marshal of in-memory values cannot fail and its error branches
are dead). -/
def finishBuild (pb : PipelineBuild) : GetPBResult :=
  let stages' := pb.stages.map setStageStatus
  { pb := some { pb with stages := stages' }
    args := some pb.parameters
    parentID := pb.previousPipelineBuild.map (·.id)
    userID := pb.trigger.triggeredBy.map (·.id)
    stagesJSON := some stages'
    err := none }

/-- How getPipelineBuild turns the outcome of the dynamic stage loop into
its return value: a panic escapes, the stage-not-found early return yields
six nils (src line 949), a parameter unmarshal error is returned (src lines
966-971), success proceeds to the tail of the function. -/
def rebuildCase (pb : PipelineBuild) (res : Except RebuildErr (List Stage)) :
    Except Unit GetPBResult :=
  match res with
  | .error .goPanic => .error ()
  | .error .stageNotFound => .ok gpbNilResult
  | .error .paramErr => .ok (gpbErrResult .paramDecodeErr)
  | .ok stages' => .ok (finishBuild { pb with stages := stages' })

/-- getPipelineBuild, src lines 889-1038.  The Except error is a Go panic
escaping the function (a failed type assertion); every handled failure is
returned inside the GetPBResult.  Steps in source order: select the payload
under the row lock, unmarshal the typed skeleton, count the target rows for
the duplicate check, unmarshal the dynamic tree, then dispatch on the
dynamic "stages" value: an absent key is the six-nil early return, a null
value empties the stage list, an array drives the rebuild loop, anything
else panics at the []interface type assertion (src line 932). -/
def getPipelineBuild (db : Db) (now : Nat) (hid : Int) : Except Unit GetPBResult :=
  match selectHistoryData db hid with
  | none => .ok (gpbErrResult .queryErr)
  | some none => .ok (gpbErrResult .decodeErr)
  | some (some doc) =>
    match goUnmarshalPB doc with
    | .error _ => .ok (gpbErrResult .decodeErr)
    | .ok pb =>
      if countPipelineBuild db pb.id ≠ 0 then .ok gpbNilResult
      else
        match goUnmarshalMap doc with
        | .error _ => .ok (gpbErrResult .decodeErr)
        | .ok fields =>
          match jget fields keyStages with
          | none => .ok gpbNilResult
          | some .null => .ok (finishBuild { pb with stages := [] })
          | some (.arr entries) =>
            rebuildCase pb (rebuildStages pb.id now pb.stages entries)
          | some _ => .error ()

/- The driver MigratePipelineHistory, src lines 800-887.  The Go source
   carries slips that a compiler would reject (the redeclaration of
   errInsert at line 864 and the out-of-scope err at line 869, both confined
   to a declaration and a log argument); the embedding reads through those
   two slips and keeps the statement-level semantics, in particular the fact
   that errGetPB (line 854) is never checked, so the driver builds the
   insert arguments from pb even when getPipelineBuild returned a nil build,
   dereferencing a nil pointer. -/

/-- Failure injection for the store operations the driver performs, keyed by
the candidate history id (or the group for the candidate query). -/
structure MigEnv where
  groupQueryOk : Bool
  candQueryOk : Int → Int → Int → Option String → Bool
  beginOk : Int → Bool
  insertOk : Int → Bool
  commitOk : Int → Bool

/-- The grouping tuple of the distinct query, src lines 804-808. -/
structure GroupKey where
  appID : Int
  pipID : Int
  envID : Int
  branch : Option String
deriving DecidableEq

def groupOf (r : LegacyRow) : GroupKey :=
  ⟨r.appID, r.pipID, r.envID, r.branch⟩

/-- Per-candidate outcome of the driver loop, following the continue points
of src lines 848-878. -/
inductive Outcome where
  | beginFailed
  | insertFailed
  | commitFailed
  | migrated
  | panicked
deriving DecidableEq

/-- The target row built from the arguments of the INSERT at src lines
858-867. -/
def mkBuildRow (pb : PipelineBuild) (r : GetPBResult) : BuildRow :=
  { id := pb.id, pipelineID := pb.pipeline.id, buildNumber := pb.buildNumber
    version := pb.version, status := pb.status, args := r.args.getD []
    start := pb.start, applicationID := pb.application.id
    environmentID := pb.environment.id, done := pb.done
    manualTrigger := pb.trigger.manualTrigger, triggeredBy := r.userID
    parentPipelineBuildID := r.parentID
    vcsChangesBranch := pb.trigger.vcsChangesBranch
    vcsChangesHash := pb.trigger.vcsChangesHash
    vcsChangesAuthor := pb.trigger.vcsChangesAuthor
    scheduledTrigger := pb.trigger.scheduledTrigger
    stages := r.stagesJSON.getD [] }

/-- The body of the candidate loop, src lines 838-881.  The Except error is
a panic aborting the whole run: either a type assertion inside
getPipelineBuild, or the driver's own dereference of the nil build returned
on every non-success path of getPipelineBuild (errGetPB is never checked).
The INSERT is executed through the shared db handle (db.Exec, src line 864),
not through the open transaction, so the inserted row reaches the committed
store directly, and the rollback taken on a commit failure does not remove
it.  The insert itself fails on a unique-key violation or an injected store
error, in which case nothing was written and the driver continues. -/
def processCandidate (env : MigEnv) (now : Nat) (st : Db) (hid : Int) :
    Except Unit (Db × Outcome) :=
  if env.beginOk hid then
    match getPipelineBuild st now hid with
    | .error _ => .error ()
    | .ok r =>
      match r.pb with
      | none => .error ()
      | some pb =>
        if env.insertOk hid && (countPipelineBuild st pb.id == 0) then
          let st' := { st with pipelineBuild := st.pipelineBuild ++ [mkBuildRow pb r] }
          if env.commitOk hid then .ok (st', .migrated)
          else .ok (st', .commitFailed)
        else .ok (st, .insertFailed)
  else .ok (st, .beginFailed)

/-- The candidate loop of one group; a panic carries the stores and the
trace at the moment the run died. -/
def runCandidates (env : MigEnv) (now : Nat) (st : Db) (tr : List (Int × Outcome)) :
    List Int → Except (Db × List (Int × Outcome)) (Db × List (Int × Outcome))
  | [] => .ok (st, tr)
  | hid :: rest =>
    match processCandidate env now st hid with
    | .error _ => .error (st, tr ++ [(hid, .panicked)])
    | .ok (st', o) => runCandidates env now st' (tr ++ [(hid, o)]) rest

/-- Sorting of the candidate query: ORDER BY version DESC (src line 827),
realized as an insertion sort placing higher versions first. -/
def insertDesc (r : LegacyRow) : List LegacyRow → List LegacyRow
  | [] => [r]
  | x :: xs => if x.version ≤ r.version then r :: x :: xs else x :: insertDesc r xs

def sortDesc : List LegacyRow → List LegacyRow
  | [] => []
  | r :: rs => insertDesc r (sortDesc rs)

/-- SQL equality of the branch column against the bound NullString
parameter (vcs_changes_branch = $4, src line 826): under SQL three-valued
logic a comparison with a NULL operand is not true, so a NULL parameter
matches no rows -- also not rows whose column is itself NULL. -/
def sqlBranchEq : Option String → Option String → Bool
  | some a, some b => a == b
  | _, _ => false

/-- The WHERE clause of the candidate query (src line 826): the three id
columns compared with ordinary equality (they are NOT NULL), the branch
with SQL NULL semantics. -/
def rowMatchesGroup (r : LegacyRow) (g : GroupKey) : Bool :=
  (r.appID == g.appID) && (r.pipID == g.pipID) && (r.envID == g.envID)
    && sqlBranchEq r.branch g.branch

/-- The rows the candidate query's WHERE clause selects for one grouping
tuple (src line 826).  For a NULL-branch group this is empty. -/
def groupRows (rows : List LegacyRow) (g : GroupKey) : List LegacyRow :=
  rows.filter (fun r => rowMatchesGroup r g)

/-- The rows actually carrying a grouping tuple (the tuples the DISTINCT
query at src lines 804-808 enumerates): plain component equality, with
NULL branch equal to NULL branch.  This is the spec-side notion of "the
group's historical records", against which the selection behaviour of
groupRows is compared. -/
def tupleRows (rows : List LegacyRow) (g : GroupKey) : List LegacyRow :=
  rows.filter (fun r => decide (groupOf r = g))

/-- SELECT pipeline_build_id FROM pipeline_history_old WHERE (group) ORDER
BY version DESC LIMIT 10 (src lines 824-829). -/
def listCandidates (rows : List LegacyRow) (g : GroupKey) : List Int :=
  ((sortDesc (groupRows rows g)).take 10).map (·.pipelineBuildID)

/-- Ascending comparison of nullable branch names; SQL sorts nulls last in
ascending order. -/
def optStrLe : Option String → Option String → Bool
  | none, none => true
  | none, some _ => false
  | some _, none => true
  | some a, some b => a < b || a == b

/-- Ascending lexicographic comparison of grouping tuples (the ORDER BY of
src line 807). -/
def groupLe (a b : GroupKey) : Bool :=
  if a.appID = b.appID then
    (if a.pipID = b.pipID then
      (if a.envID = b.envID then optStrLe a.branch b.branch
       else decide (a.envID < b.envID))
     else decide (a.pipID < b.pipID))
  else decide (a.appID < b.appID)

def insertGroupAsc (g : GroupKey) : List GroupKey → List GroupKey
  | [] => [g]
  | x :: xs => if groupLe g x then g :: x :: xs else x :: insertGroupAsc g xs

def sortGroupsAsc : List GroupKey → List GroupKey
  | [] => []
  | g :: gs => insertGroupAsc g (sortGroupsAsc gs)

def dedupGroups : List GroupKey → List GroupKey
  | [] => []
  | g :: rest =>
    if g ∈ dedupGroups rest then dedupGroups rest else g :: dedupGroups rest

/-- SELECT DISTINCT (grouping columns) ORDER BY them ascending, src lines
804-808. -/
def listGroups (rows : List LegacyRow) : List GroupKey :=
  sortGroupsAsc (dedupGroups (rows.map groupOf))

/-- The group loop, src lines 815-885: a failed candidate query skips to the
next group (the continue at line 834), everything else runs the candidate
loop. -/
def runGroups (env : MigEnv) (now : Nat) (st : Db) (tr : List (Int × Outcome)) :
    List GroupKey → Except (Db × List (Int × Outcome)) (Db × List (Int × Outcome))
  | [] => .ok (st, tr)
  | g :: rest =>
    if env.candQueryOk g.appID g.pipID g.envID g.branch then
      match runCandidates env now st tr (listCandidates st.historyOld g) with
      | .error e => .error e
      | .ok (st', tr') => runGroups env now st' tr' rest
    else runGroups env now st tr rest

/-- Result of a whole run: a normal return carrying the returned error flag
(true exactly when the distinct group query failed, src line 812), or a
panic escaping MigratePipelineHistory. -/
inductive RunResult where
  | finished (returnedErr : Bool) (db : Db) (trace : List (Int × Outcome))
  | panicked (db : Db) (trace : List (Int × Outcome))

/-- MigratePipelineHistory, src lines 800-887. -/
def migratePipelineHistory (env : MigEnv) (now : Nat) (db : Db) : RunResult :=
  if env.groupQueryOk then
    match runGroups env now db [] (listGroups db.historyOld) with
    | .error (st, tr) => .panicked st tr
    | .ok (st, tr) => .finished false st tr
  else .finished true db []

def RunResult.db : RunResult → Db
  | .finished _ d _ => d
  | .panicked d _ => d

def RunResult.trace : RunResult → List (Int × Outcome)
  | .finished _ _ t => t
  | .panicked _ t => t

def RunResult.didPanic : RunResult → Bool
  | .finished _ _ _ => false
  | .panicked _ _ => true

/- Concrete payloads and stores used to evaluate the embedding.  The main
   example follows the worked example of the spec (section 8): legacy record
   42 with one stage holding one failed job. -/

def sBuild : String := "build"
def sX : String := "X"
def sOne : String := "1"
def sT0 : String := "t0"
def sT1 : String := "t1"
def sStage1 : String := "stage1"
def sBuilding : String := "Building"
def sSkel : String := "s"
def sBr : String := "master"

/-- The dynamic job entry of the spec's worked example, carrying textual
start/done fields. -/
def exJobEntry : Json :=
  .obj [(keyId, .num 9), (keyStatus, .str statusFail), (keyActionName, .str sBuild),
        (keyPipelineActionId, .num 5), (keyStart, .str sT0), (keyDone, .str sT1),
        (keyArgs, .arr [.obj [(keyName, .str sX), (keyValue, .str sOne)]])]

/-- The dynamic stage entry of the worked example (stage id 1, one build). -/
def exStageEntry : Json :=
  .obj [(keyId, .num 1), (keyName, .str sStage1), (keyBuilds, .arr [exJobEntry])]

/-- The full legacy payload of the worked example (build id 42). -/
def exPayload : Json :=
  .obj [(keyId, .num 42), (keyPipeline, .obj [(keyId, .num 7)]),
        (keyApplication, .obj [(keyId, .num 3)]), (keyEnvironment, .obj [(keyId, .num 4)]),
        (keyVersion, .num 2), (keyBuildNumber, .num 2), (keyStatus, .str sBuilding),
        (keyStages, .arr [exStageEntry])]

def exParam : Parameter := ⟨sX, "", sOne⟩

def exJob : Job := ⟨⟨sBuild⟩, true, 5⟩

def exPBJob : PipelineBuildJob := ⟨9, [exParam], 42, "", statusFail, exJob, 0, 0⟩

def exStageOut : Stage := ⟨1, sStage1, statusFail, [exJob], [exPBJob]⟩

/-- The build getPipelineBuild reconstructs from the worked example. -/
def exPB : PipelineBuild :=
  { id := 42, pipeline := ⟨7⟩, application := ⟨3⟩, environment := ⟨4⟩
    buildNumber := 2, version := 2, status := sBuilding, parameters := []
    start := 0, done := 0, trigger := zeroTrigger
    previousPipelineBuild := none, stages := [exStageOut] }

def exResult : GetPBResult := ⟨some exPB, some [], none, none, some [exStageOut], none⟩

/-- A store holding only the worked example as history row 42. -/
def dbEx : Db := ⟨[⟨42, 3, 7, 4, none, 2, some exPayload⟩], []⟩

/-- Failure-free environment: every store operation succeeds. -/
def envAllOk : MigEnv :=
  ⟨true, fun _ _ _ _ => true, fun _ => true, fun _ => true, fun _ => true⟩

/-- A minimal well-formed payload: build id 50, explicit null stages. -/
def goodPayload2 : Json := .obj [(keyId, .num 50), (keyStages, .null)]

/-- Two candidates in one group (branch "master", non-NULL, so the
candidate query selects them): candidate 1 (higher version) holds a payload
that is not valid JSON, candidate 2 is perfectly migratable. -/
def dbC1 : Db :=
  ⟨[⟨1, 1, 1, 1, some sBr, 2, none⟩, ⟨2, 1, 1, 1, some sBr, 1, some goodPayload2⟩], []⟩

/-- The same store with the malformed candidate removed. -/
def dbC1b : Db := ⟨[⟨2, 1, 1, 1, some sBr, 1, some goodPayload2⟩], []⟩

/-- A pre-existing target row for build id 42 (all other columns zero). -/
def preexistingRowC2 : BuildRow :=
  { id := 42, pipelineID := 0, buildNumber := 0, version := 0, status := ""
    args := [], start := 0, applicationID := 0, environmentID := 0, done := 0
    manualTrigger := false, triggeredBy := none, parentPipelineBuildID := none
    vcsChangesBranch := "", vcsChangesHash := "", vcsChangesAuthor := ""
    scheduledTrigger := false, stages := [] }

/-- A valid payload for build id 42, to be re-offered for migration. -/
def dupPayload : Json := .obj [(keyId, .num 42), (keyStages, .null)]

/-- History row 7 (branch "master", non-NULL) carries build 42, which
already has a target row. -/
def dbC2 : Db := ⟨[⟨7, 1, 1, 1, some sBr, 1, some dupPayload⟩], [preexistingRowC2]⟩

/-- One valid candidate (history id 5, build id 42, branch "master"). -/
def dbC4 : Db := ⟨[⟨5, 1, 1, 1, some sBr, 1, some dupPayload⟩], []⟩

/-- Environment whose only failure is the commit of candidate 5's
transaction. -/
def envC4 : MigEnv :=
  ⟨true, fun _ _ _ _ => true, fun _ => true, fun _ => true, fun hid => hid != 5⟩

/-- A payload with no stages key at all (build id 41). -/
def pNoStages : Json := .obj [(keyId, .num 41)]

/-- A payload with an explicitly null stages value (build id 43). -/
def pNullStages : Json := .obj [(keyId, .num 43), (keyStages, .null)]

def dbC5 : Db := ⟨[⟨41, 1, 1, 1, none, 2, some pNoStages⟩,
                  ⟨43, 1, 1, 1, none, 1, some pNullStages⟩], []⟩

/-- The build reconstructed from the null-stages payload: the zero skeleton
with id 43 and an empty stage sequence. -/
def pbC5null : PipelineBuild := { zeroPipelineBuild with id := 43 }

/-- A skeleton stage with id 1 and no jobs. -/
def stSkelC6 : Stage := ⟨1, sStage1, "", [], []⟩

/-- A dynamic stage entry whose id 99 matches no skeleton stage. -/
def entryC6 : Json := .obj [(keyId, .num 99), (keyBuilds, .arr [])]

/-- A decoded skeleton holding only the id-1 stage. -/
def pbC6 : PipelineBuild := { zeroPipelineBuild with id := 42, stages := [stSkelC6] }

/-- A store whose candidate 1 carries an invalid (non-JSON) payload. -/
def dbC8bad : Db := ⟨[⟨1, 1, 1, 1, none, 1, none⟩], []⟩

/-- Eleven history rows of one NULL-branch group with distinct versions
1..11. -/
def rowW (i : Int) : LegacyRow := ⟨i, 1, 1, 1, none, i, none⟩

def rowsW : List LegacyRow :=
  [rowW 1, rowW 2, rowW 3, rowW 4, rowW 5, rowW 6, rowW 7, rowW 8, rowW 9,
   rowW 10, rowW 11]

/-- The NULL-branch grouping tuple of rowsW. -/
def gW : GroupKey := ⟨1, 1, 1, none⟩

/-- Eleven history rows of one branch-"master" group with distinct versions
1..11. -/
def rowW2 (i : Int) : LegacyRow := ⟨i, 1, 1, 1, some sBr, i, none⟩

def rowsW2 : List LegacyRow :=
  [rowW2 1, rowW2 2, rowW2 3, rowW2 4, rowW2 5, rowW2 6, rowW2 7, rowW2 8,
   rowW2 9, rowW2 10, rowW2 11]

/-- The non-NULL grouping tuple of rowsW2. -/
def gW2 : GroupKey := ⟨1, 1, 1, some sBr⟩

/-- A skeleton stage with id 1 that already carries decoded jobs, to expose
the replace-not-merge behaviour. -/
def stW1 : Stage := ⟨1, sSkel, "", [exJob, exJob], [exPBJob, exPBJob]⟩

def stW2 : Stage := ⟨2, "", "", [], []⟩

/-- The id-1 stage after the rebuild: its prior job lists replaced by the
single rebuilt job. -/
def stW1' : Stage := ⟨1, sSkel, "", [exJob], [exPBJob]⟩

/- Ordering facts about the candidate window (ORDER BY version DESC
   LIMIT 10). -/

lemma insertDesc_perm (r : LegacyRow) (l : List LegacyRow) :
    (insertDesc r l).Perm (r :: l) := by
  induction l with
  | nil => exact List.Perm.refl _
  | cons x xs ih =>
    simp only [insertDesc]
    split
    · exact List.Perm.refl _
    · exact (List.Perm.cons x ih).trans (List.Perm.swap r x xs)

lemma sortDesc_perm (l : List LegacyRow) : (sortDesc l).Perm l := by
  induction l with
  | nil => exact List.Perm.refl _
  | cons r rs ih => exact (insertDesc_perm r (sortDesc rs)).trans (List.Perm.cons r ih)

lemma mem_insertDesc {x r : LegacyRow} {l : List LegacyRow} (h : x ∈ insertDesc r l) :
    x = r ∨ x ∈ l := by
  have := (insertDesc_perm r l).mem_iff.mp h
  simpa using this

lemma pairwise_insertDesc {r : LegacyRow} {l : List LegacyRow}
    (h : l.Pairwise (fun a b => b.version ≤ a.version)) :
    (insertDesc r l).Pairwise (fun a b => b.version ≤ a.version) := by
  induction l with
  | nil => simp [insertDesc]
  | cons x xs ih =>
    rcases List.pairwise_cons.mp h with ⟨hx, hxs⟩
    simp only [insertDesc]
    split
    · next hle =>
      refine List.pairwise_cons.mpr ⟨?_, h⟩
      intro y hy
      rcases List.mem_cons.mp hy with rfl | hyxs
      · exact hle
      · exact le_trans (hx y hyxs) hle
    · next hgt =>
      refine List.pairwise_cons.mpr ⟨?_, ih hxs⟩
      intro y hy
      rcases mem_insertDesc hy with rfl | hyxs
      · exact le_of_lt (lt_of_not_le hgt)
      · exact hx y hyxs

lemma sortDesc_pairwise (l : List LegacyRow) :
    (sortDesc l).Pairwise (fun a b => b.version ≤ a.version) := by
  induction l with
  | nil => simp [sortDesc]
  | cons r rs ih => exact pairwise_insertDesc ih

/- Facts about the derived stage status. -/

lemma statusSuccess_ne_statusFail : statusSuccess ≠ statusFail := by decide

lemma stageStatusOf_fail_iff (js : List PipelineBuildJob) :
    stageStatusOf js = statusFail ↔ ∃ j ∈ js, j.status = statusFail := by
  induction js with
  | nil =>
    simp only [stageStatusOf]
    exact iff_of_false statusSuccess_ne_statusFail (by simp)
  | cons j rest ih =>
    simp only [stageStatusOf]
    by_cases hj : j.status = statusFail
    · simp [hj]
    · have : (j.status == statusFail) = false := by simpa using hj
      simp [this, ih, hj]

lemma stageStatusOf_fail_or_success (js : List PipelineBuildJob) :
    stageStatusOf js = statusFail ∨ stageStatusOf js = statusSuccess := by
  induction js with
  | nil => exact Or.inr rfl
  | cons j rest ih =>
    simp only [stageStatusOf]
    split
    · exact Or.inl rfl
    · exact ih

/-- Inversion of getPipelineBuild: whenever it returns a build, that build's
stage list is the image of some list under the status derivation pass (the
only two return sites producing a build go through finishBuild). -/
lemma getPipelineBuild_pb_stages (db : Db) (now : Nat) (hid : Int) (r : GetPBResult)
    (pb : PipelineBuild) (h : getPipelineBuild db now hid = .ok r) (hpb : r.pb = some pb) :
    ∃ ss : List Stage, pb.stages = ss.map setStageStatus := by
  unfold getPipelineBuild at h
  rcases hsel : selectHistoryData db hid with _ | (_ | doc) <;> simp only [hsel] at h
  · cases h; simp [gpbErrResult] at hpb
  · cases h; simp [gpbErrResult] at hpb
  rcases hupb : goUnmarshalPB doc with e | pb0 <;> simp only [hupb] at h
  · cases h; simp [gpbErrResult] at hpb
  by_cases hc : countPipelineBuild db pb0.id ≠ 0
  · rw [if_pos hc] at h
    cases h; simp [gpbNilResult] at hpb
  rw [if_neg hc] at h
  rcases hmap : goUnmarshalMap doc with e | fields <;> simp only [hmap] at h
  · cases h; simp [gpbErrResult] at hpb
  rcases hstg : jget fields keyStages with _ | (_ | b | n | s | xs | fs) <;>
    simp only [hstg] at h
  · cases h; simp [gpbNilResult] at hpb
  · cases h
    simp only [finishBuild] at hpb
    injection hpb with hpb2
    exact ⟨_, by rw [← hpb2]⟩
  · cases h
  · cases h
  · cases h
  · unfold rebuildCase at h
    rcases hrb : rebuildStages pb0.id now pb0.stages xs with er | ss2 <;>
      simp only [hrb] at h
    · rcases er with _ | _ | _
      · cases h
      · cases h; simp [gpbNilResult] at hpb
      · cases h; simp [gpbErrResult] at hpb
    · cases h
      simp only [finishBuild] at hpb
      injection hpb with hpb2
      exact ⟨_, by rw [← hpb2]⟩
  · cases h

/- Facts about the dynamic rebuild loop. -/

lemma anyId_true_iff (ss : List Stage) (sid : Int) :
    anyId ss sid = true ↔ ∃ s ∈ ss, s.id = sid := by
  simp [anyId, List.any_eq_true, beq_iff_eq]

lemma resetAndAttach_id_map (ss : List Stage) (sid : Int) (jobs : List PipelineBuildJob) :
    (resetAndAttach ss sid jobs).map (·.id) = ss.map (·.id) := by
  induction ss with
  | nil => rfl
  | cons s rest ih =>
    simp only [resetAndAttach, List.map_cons, ih]
    congr 1
    split
    · split <;> rfl
    · rfl

lemma pairwise_id_resetAndAttach {ss : List Stage} {sid : Int} {jobs : List PipelineBuildJob}
    (h : ss.Pairwise (fun a b => a.id ≠ b.id)) :
    (resetAndAttach ss sid jobs).Pairwise (fun a b => a.id ≠ b.id) := by
  have h1 : ((resetAndAttach ss sid jobs).map (·.id)).Pairwise (· ≠ ·) := by
    rw [resetAndAttach_id_map]
    exact (List.pairwise_map).mpr h
  exact (List.pairwise_map).mp h1

lemma mem_resetAndAttach_of_ne {ss : List Stage} {sid : Int} {jobs : List PipelineBuildJob}
    {t : Stage} (ht : t ∈ ss) (hne : t.id ≠ sid) :
    t ∈ resetAndAttach ss sid jobs := by
  induction ss with
  | nil => cases ht
  | cons s rest ih =>
    rcases List.mem_cons.mp ht with rfl | hmem
    · have hfalse : (t.id == sid) = false := by simpa using hne
      simp only [resetAndAttach, hfalse]
      exact List.mem_cons_self _ _
    · simp only [resetAndAttach]
      exact List.mem_cons_of_mem _ (ih hmem)

lemma resetAndAttach_attaches {ss : List Stage} {sid : Int} {jobs : List PipelineBuildJob}
    (hdist : ss.Pairwise (fun a b => a.id ≠ b.id))
    (hmem : ∃ s ∈ ss, s.id = sid) :
    ∃ t ∈ resetAndAttach ss sid jobs,
      t.id = sid ∧ t.pipelineBuildJobs = jobs ∧ t.jobs = jobs.map (·.job) := by
  induction ss with
  | nil => rcases hmem with ⟨s, hs, _⟩; cases hs
  | cons s rest ih =>
    rcases List.pairwise_cons.mp hdist with ⟨hhead, htail⟩
    rcases hmem with ⟨s0, hs0, hs0id⟩
    rcases List.mem_cons.mp hs0 with rfl | hs0rest
    · have htrue : (s0.id == sid) = true := by simpa using hs0id
      have hnone : anyId rest sid = false := by
        simp only [anyId, List.any_eq_false, beq_iff_eq]
        intro x hx hcontra
        exact (hhead x hx) (hs0id.trans hcontra.symm)
      simp only [resetAndAttach, htrue, if_true, hnone, if_false]
      refine ⟨attachJobs (resetStage s0) jobs, List.mem_cons_self _ _, ?_, ?_, ?_⟩
      · simpa [attachJobs, resetStage] using hs0id
      · rfl
      · rfl
    · have hne : s.id ≠ sid := by
        intro hcontra
        exact (hhead s0 hs0rest) (by rw [hcontra, hs0id])
      rcases ih htail ⟨s0, hs0rest, hs0id⟩ with ⟨t, htmem, htprops⟩
      exact ⟨t, by simp only [resetAndAttach]; exact List.mem_cons_of_mem _ htmem, htprops⟩

lemma processStageEntry_ok_inv {pbID : Int} {now : Nat} {ss ss' : List Stage} {e : Json}
    (h : processStageEntry pbID now ss e = .ok ss') :
    ∃ sid builds jobs, stageEntryId e = some sid ∧ stageEntryBuilds e = some builds
      ∧ buildsToJobs pbID now builds = .ok jobs ∧ anyId ss sid = true
      ∧ ss' = resetAndAttach ss sid jobs := by
  unfold processStageEntry at h
  rcases hsid : stageEntryId e with _ | sid <;> simp only [hsid] at h
  · cases h
  by_cases hany : anyId ss sid = true
  · rw [if_pos hany] at h
    rcases hb : stageEntryBuilds e with _ | builds <;> simp only [hb] at h
    · cases h
    rcases hj : buildsToJobs pbID now builds with er | jobs <;> simp only [hj] at h
    · cases h
    cases h
    exact ⟨sid, builds, jobs, rfl, rfl, hj, hany, rfl⟩
  · rw [if_neg hany] at h
    cases h

lemma rebuildStages_preserves {pbID : Int} {now : Nat} {t : Stage} :
    ∀ {ss ss' : List Stage} {es : List Json},
    rebuildStages pbID now ss es = .ok ss' → t ∈ ss →
    (∀ e' ∈ es, stageEntryId e' ≠ some t.id) → t ∈ ss' := by
  intro ss ss' es
  induction es generalizing ss with
  | nil =>
    intro hok ht _
    simp only [rebuildStages] at hok
    cases hok
    exact ht
  | cons e0 rest ih =>
    intro hok ht hne
    simp only [rebuildStages] at hok
    rcases hps : processStageEntry pbID now ss e0 with er | ss1 <;> simp only [hps] at hok
    · cases hok
    rcases processStageEntry_ok_inv hps with ⟨sid0, b0, j0, hsid0, _, _, _, rfl⟩
    have hne0 : t.id ≠ sid0 := by
      intro hcontra
      exact hne e0 (List.mem_cons_self _ _) (by rw [hcontra, hsid0])
    exact ih hok (mem_resetAndAttach_of_ne ht hne0)
      (fun e' he' => hne e' (List.mem_cons_of_mem _ he'))

lemma buildToJob_enabled {pbID : Int} {now : Nat} {b : Json} {j : PipelineBuildJob}
    (h : buildToJob pbID now b = .ok j) : j.job.enabled = true := by
  unfold buildToJob at h
  repeat' split at h
  all_goals cases h
  rfl

lemma buildsToJobs_enabled {pbID : Int} {now : Nat} :
    ∀ {bs : List Json} {jobs : List PipelineBuildJob},
    buildsToJobs pbID now bs = .ok jobs → ∀ j ∈ jobs, j.job.enabled = true := by
  intro bs
  induction bs with
  | nil =>
    intro jobs h j hj
    simp only [buildsToJobs] at h
    cases h
    cases hj
  | cons b rest ih =>
    intro jobs h j hj
    simp only [buildsToJobs] at h
    rcases hb : buildToJob pbID now b with er | j0 <;> simp only [hb] at h
    · cases h
    rcases hr : buildsToJobs pbID now rest with er | js <;> simp only [hr] at h
    · cases h
    cases h
    rcases List.mem_cons.mp hj with rfl | hjr
    · exact buildToJob_enabled hb
    · exact ih hr j hjr

/-- C1: the claim says a failure in steps 3-6 aborts only that candidate's
transaction and the driver always proceeds to the next candidate.  The code
violates this: errGetPB is never checked, so after a decode failure the
driver dereferences the nil build while assembling the insert arguments and
the whole run dies.  Concretely: with candidates 1 (invalid JSON, higher
version) and 2 (fully migratable) in one group, the run panics at candidate
1, the trace stops there, nothing is migrated -- although candidate 2 alone
would migrate fine. -/
theorem c1_decode_failure_aborts_whole_run :
    (migratePipelineHistory envAllOk 0 dbC1).didPanic = true
    ∧ (migratePipelineHistory envAllOk 0 dbC1).trace = [(1, Outcome.panicked)]
    ∧ (migratePipelineHistory envAllOk 0 dbC1).db.pipelineBuild = []
    ∧ (migratePipelineHistory envAllOk 0 dbC1b).didPanic = false
    ∧ (migratePipelineHistory envAllOk 0 dbC1b).trace = [(2, Outcome.migrated)] :=
  ⟨rfl, rfl, rfl, rfl, rfl⟩

/-- C2: the claim says a candidate whose build id already has a target row
is a no-op success with reconstruction and write skipped.  In the code the
duplicate check does make getPipelineBuild return early (six nils, so
reconstruction is indeed skipped and the pre-existing row is untouched),
but the driver never checks that result and panics dereferencing the nil
build, so the candidate is not a no-op success and the run aborts. -/
theorem c2_preexisting_row_panics_run :
    getPipelineBuild dbC2 0 7 = .ok gpbNilResult
    ∧ (migratePipelineHistory envAllOk 0 dbC2).didPanic = true
    ∧ (migratePipelineHistory envAllOk 0 dbC2).db.pipelineBuild = [preexistingRowC2]
    ∧ (migratePipelineHistory envAllOk 0 dbC2).trace = [(7, Outcome.panicked)] :=
  ⟨rfl, rfl, rfl, rfl⟩

/-- C3: the claim says the constructed Job's Start and Done equal the values
parsed from the textual start/done fields.  The code calls time.Now() and
then Format (which renders, not parses, and whose result is discarded), so
Start and Done are the current wall clock: on the same job entry (textual
start t0, done t1) the constructed timestamps follow the injected clock
(1111, then 2222) and are independent of the payload text. -/
theorem c3_start_done_are_wall_clock :
    (buildToJob 42 1111 exJobEntry).map (·.start) = .ok 1111
    ∧ (buildToJob 42 1111 exJobEntry).map (·.done) = .ok 1111
    ∧ (buildToJob 42 2222 exJobEntry).map (·.start) = .ok 2222
    ∧ (buildToJob 42 2222 exJobEntry).map (·.done) = .ok 2222 :=
  ⟨rfl, rfl, rfl, rfl⟩

/-- C4: the claim says the insert runs inside the candidate's transaction so
that a rollback leaves no row.  The code executes the INSERT through the
shared db handle (db.Exec), outside the open transaction: when candidate 5's
commit fails and the transaction is rolled back, the inserted row for build
42 is nevertheless present in the target store. -/
theorem c4_insert_outside_transaction :
    (migratePipelineHistory envC4 0 dbC4).didPanic = false
    ∧ (migratePipelineHistory envC4 0 dbC4).trace = [(5, Outcome.commitFailed)]
    ∧ (migratePipelineHistory envC4 0 dbC4).db.pipelineBuild.map (·.id) = [42] :=
  ⟨rfl, rfl, rfl⟩

/-- C5 counterexample: the claim says a payload with no stages key yields a
Build with an empty stage sequence, the same as a null stages value.  On
payload 41 (no stages key) getPipelineBuild returns the six-nil result --
no Build at all -- while on payload 43 (null stages) it returns a Build
with an empty stage sequence; the two cases are not the same. -/
theorem c5_counterexample :
    getPipelineBuild dbC5 0 41 = .ok gpbNilResult
    ∧ (getPipelineBuild dbC5 0 41).map (fun r => r.pb.isSome) = .ok false
    ∧ (getPipelineBuild dbC5 0 43).map (·.pb) = .ok (some pbC5null)
    ∧ pbC5null.stages = [] :=
  ⟨rfl, rfl, rfl, rfl⟩

/-- C5 as amended: a decodable, non-duplicate payload with no stages key
makes getPipelineBuild return the six-nil result without error (no Build is
produced and nothing is written), whereas an explicitly null stages value
produces a Build whose stage sequence is empty. -/
theorem c5_amended (db : Db) (now : Nat) (hid : Int) (doc : Json) (pb : PipelineBuild)
    (fields : List (String × Json))
    (hsel : selectHistoryData db hid = some (some doc))
    (hupb : goUnmarshalPB doc = .ok pb)
    (hcount : countPipelineBuild db pb.id = 0)
    (hmap : goUnmarshalMap doc = .ok fields) :
    (jget fields keyStages = none → getPipelineBuild db now hid = .ok gpbNilResult)
    ∧ (jget fields keyStages = some .null →
        getPipelineBuild db now hid = .ok (finishBuild { pb with stages := [] })
        ∧ ∃ pb' : PipelineBuild,
            (finishBuild { pb with stages := [] }).pb = some pb' ∧ pb'.stages = []) := by
  constructor
  · intro hstg
    unfold getPipelineBuild
    simp only [hsel, hupb, hcount, hmap, hstg]
    simp
  · intro hstg
    refine ⟨?_, ?_⟩
    · unfold getPipelineBuild
      simp only [hsel, hupb, hcount, hmap, hstg]
      simp
    · exact ⟨_, rfl, by simp [finishBuild]⟩

/-- C5 amended, instantiated on the concrete no-stages payload 41. -/
theorem c5_amended_witness :
    (selectHistoryData dbC5 41 = some (some pNoStages)
     ∧ goUnmarshalPB pNoStages = .ok { zeroPipelineBuild with id := 41 }
     ∧ countPipelineBuild dbC5 41 = 0
     ∧ goUnmarshalMap pNoStages = .ok [(keyId, .num 41)]
     ∧ jget [(keyId, Json.num 41)] keyStages = none)
    ∧ getPipelineBuild dbC5 0 41 = .ok gpbNilResult :=
  ⟨⟨rfl, rfl, rfl, rfl, rfl⟩,
   (c5_amended dbC5 0 41 pNoStages { zeroPipelineBuild with id := 41 }
      [(keyId, .num 41)] rfl rfl rfl rfl).1 rfl⟩

/-- C6: the claim says a dynamic stage entry whose id matches no skeleton
stage fails with a ReconstructionError rather than returning a non-error
result.  The code takes the early return of six nils with a NIL error
(src line 949): on skeleton stage id 1 and dynamic entry id 99 the rebuild
stops at stage-not-found and getPipelineBuild turns that into the six-nil
result whose error component is none -- a non-error result (which the
driver then dereferences, panicking the run). -/
theorem c6_stage_not_found_returns_nil_error :
    rebuildStages 42 0 [stSkelC6] [entryC6] = .error .stageNotFound
    ∧ rebuildCase pbC6 (rebuildStages 42 0 [stSkelC6] [entryC6]) = .ok gpbNilResult
    ∧ gpbNilResult.err = none
    ∧ gpbNilResult.pb = none :=
  ⟨rfl, rfl, rfl, rfl⟩

/-- C7: for every build getPipelineBuild returns, each stage's derived
status is the fail sentinel exactly when some contained pipeline build job
carries the fail sentinel, and is Success otherwise. -/
theorem c7_stage_status (db : Db) (now : Nat) (hid : Int) (r : GetPBResult)
    (pb : PipelineBuild) (h : getPipelineBuild db now hid = .ok r) (hpb : r.pb = some pb) :
    ∀ s ∈ pb.stages,
      (s.status = statusFail ↔ ∃ j ∈ s.pipelineBuildJobs, j.status = statusFail)
      ∧ (s.status = statusFail ∨ s.status = statusSuccess) := by
  obtain ⟨ss, hss⟩ := getPipelineBuild_pb_stages db now hid r pb h hpb
  intro s hs
  rw [hss] at hs
  obtain ⟨s0, hs0, rfl⟩ := List.mem_map.mp hs
  constructor
  · simpa [setStageStatus] using stageStatusOf_fail_iff s0.pipelineBuildJobs
  · simpa [setStageStatus] using stageStatusOf_fail_or_success s0.pipelineBuildJobs

/-- C7 instantiated on the worked example of the spec: build 42's only
stage derives status Fail from its failed job. -/
theorem c7_stage_status_witness :
    (getPipelineBuild dbEx 0 42 = .ok exResult)
    ∧ ((exStageOut.status = statusFail ↔
         ∃ j ∈ exStageOut.pipelineBuildJobs, j.status = statusFail)
       ∧ (exStageOut.status = statusFail ∨ exStageOut.status = statusSuccess)) :=
  ⟨rfl, c7_stage_status dbEx 0 42 exResult exPB rfl rfl exStageOut (by decide)⟩

/-- C8 counterexample: the claim says decoding fails if the payload lacks
the mandatory identity fields.  The empty JSON object is valid JSON with no
id and no pipeline ref, yet it unmarshals without error into the zero
skeleton. -/
theorem c8_counterexample :
    goUnmarshalPB (Json.obj []) = .ok zeroPipelineBuild
    ∧ zeroPipelineBuild.id = 0
    ∧ zeroPipelineBuild.pipeline.id = 0 :=
  ⟨rfl, rfl, rfl⟩

/-- C8 as amended: decoding fails when the payload is not valid JSON (the
scan error is returned as a decode failure), while a valid JSON object that
merely lacks the id and pipeline fields decodes without error, leaving both
identity fields zero. -/
theorem c8_amended :
    (∀ (db : Db) (now : Nat) (hid : Int), selectHistoryData db hid = some none →
       getPipelineBuild db now hid = .ok (gpbErrResult .decodeErr))
    ∧ (∀ (fs : List (String × Json)) (pb : PipelineBuild),
         goUnmarshalPB (Json.obj fs) = .ok pb →
         jget fs keyId = none → jget fs keyPipeline = none →
         pb.id = 0 ∧ pb.pipeline.id = 0) := by
  constructor
  · intro db now hid hsel
    unfold getPipelineBuild
    simp only [hsel]
  · intro fs pb h hkid hkpip
    have h1 : decIntField fs keyId = .ok 0 := by simp [decIntField, hkid]
    have h2 : decRefIdField fs keyPipeline = .ok 0 := by simp [decRefIdField, hkpip]
    simp only [goUnmarshalPB] at h
    rw [h1, h2] at h
    repeat' split at h
    all_goals cases h
    all_goals simp_all

/-- C8 amended, instantiated on an invalid payload and on the empty
object. -/
theorem c8_amended_witness :
    (selectHistoryData dbC8bad 1 = some none
     ∧ getPipelineBuild dbC8bad 0 1 = .ok (gpbErrResult .decodeErr))
    ∧ (goUnmarshalPB (Json.obj []) = .ok zeroPipelineBuild
       ∧ zeroPipelineBuild.id = 0 ∧ zeroPipelineBuild.pipeline.id = 0) :=
  ⟨⟨rfl, c8_amended.1 dbC8bad 0 1 rfl⟩,
   ⟨rfl, c8_amended.2 [] zeroPipelineBuild rfl rfl rfl⟩⟩

lemma sqlBranchEq_none_right (a : Option String) : sqlBranchEq a none = false := by
  cases a <;> rfl

/-- A NULL-branch group's candidate query selects no rows: the branch
comparison with the NULL parameter is never true. -/
lemma groupRows_none {rows : List LegacyRow} {g : GroupKey} (hg : g.branch = none) :
    groupRows rows g = [] := by
  refine List.filter_eq_nil_iff.mpr ?_
  intro r _
  simp [rowMatchesGroup, hg, sqlBranchEq_none_right]

/-- For a group whose branch is non-NULL, the candidate query's WHERE clause
agrees with plain grouping-tuple equality. -/
lemma rowMatchesGroup_eq_decide {g : GroupKey} {b : String} (hb : g.branch = some b)
    (r : LegacyRow) : rowMatchesGroup r g = decide (groupOf r = g) := by
  rcases g with ⟨ga, gp, ge, gb⟩
  rcases r with ⟨pbid, ra, rp, re, rb, rv, rd⟩
  simp only at hb
  subst hb
  refine Bool.eq_iff_iff.mpr ?_
  rcases rb with _ | sb <;>
    simp [rowMatchesGroup, sqlBranchEq, groupOf, GroupKey.mk.injEq, and_assoc]

lemma groupRows_eq_tupleRows {rows : List LegacyRow} {g : GroupKey} {b : String}
    (hb : g.branch = some b) : groupRows rows g = tupleRows rows g :=
  List.filter_congr (fun r _ => rowMatchesGroup_eq_decide hb r)

/-- Core of the window cap for a group whose candidate query does select its
rows: 10 candidates taken from a version-descending permutation, dominating
every excluded row. -/
lemma window_cap_core (rows : List LegacyRow) (g : GroupKey)
    (h : 10 < (groupRows rows g).length) :
    (listCandidates rows g).length = 10
    ∧ (sortDesc (groupRows rows g)).Perm (groupRows rows g)
    ∧ (sortDesc (groupRows rows g)).Pairwise (fun a b => b.version ≤ a.version)
    ∧ (∀ r ∈ (sortDesc (groupRows rows g)).take 10,
        ∀ r' ∈ (sortDesc (groupRows rows g)).drop 10, r'.version ≤ r.version)
    ∧ listCandidates rows g
        = ((sortDesc (groupRows rows g)).take 10).map (·.pipelineBuildID) := by
  have hperm := sortDesc_perm (groupRows rows g)
  have hlen : (sortDesc (groupRows rows g)).length = (groupRows rows g).length :=
    hperm.length_eq
  refine ⟨?_, hperm, sortDesc_pairwise _, ?_, rfl⟩
  · simp only [listCandidates, List.length_map, List.length_take, hlen]
    exact Nat.min_eq_left (le_of_lt h)
  · have hp := sortDesc_pairwise (groupRows rows g)
    rw [← List.take_append_drop 10 (sortDesc (groupRows rows g))] at hp
    have := List.pairwise_append.mp hp
    exact this.2.2

/-- C9 counterexample: the claim says every group with more than 10
historical records gets exactly the 10 highest-version ones as candidates.
The NULL-branch group gW carries 11 records in rowsW, yet the candidate
query -- whose vcs_changes_branch = $4 comparison is bound to NULL --
selects none of them, and a whole run over that store migrates nothing. -/
theorem c9_counterexample :
    10 < (tupleRows rowsW gW).length
    ∧ gW.branch = none
    ∧ groupRows rowsW gW = []
    ∧ listCandidates rowsW gW = []
    ∧ (migratePipelineHistory envAllOk 0 ⟨rowsW, []⟩).trace = []
    ∧ (migratePipelineHistory envAllOk 0 ⟨rowsW, []⟩).didPanic = false :=
  ⟨by decide, rfl, rfl, rfl, rfl, rfl⟩

/-- C9 as amended: for a group whose branch is NULL the candidate query
matches no rows (SQL equality with a NULL parameter), so no candidate is
ever selected; for a group with a non-NULL branch the WHERE clause agrees
with grouping-tuple equality and, when the group holds more than 10
records, exactly 10 candidates are selected, taken from a
version-descending permutation of the group's rows, every selected version
dominating every excluded one. -/
theorem c9_amended (rows : List LegacyRow) (g : GroupKey) :
    (g.branch = none → groupRows rows g = [] ∧ listCandidates rows g = [])
    ∧ (∀ b : String, g.branch = some b →
        groupRows rows g = tupleRows rows g
        ∧ (10 < (groupRows rows g).length →
            (listCandidates rows g).length = 10
            ∧ (sortDesc (groupRows rows g)).Perm (groupRows rows g)
            ∧ (sortDesc (groupRows rows g)).Pairwise (fun a b => b.version ≤ a.version)
            ∧ (∀ r ∈ (sortDesc (groupRows rows g)).take 10,
                ∀ r' ∈ (sortDesc (groupRows rows g)).drop 10, r'.version ≤ r.version)
            ∧ listCandidates rows g
                = ((sortDesc (groupRows rows g)).take 10).map (·.pipelineBuildID))) := by
  constructor
  · intro hg
    have h0 : groupRows rows g = [] := groupRows_none hg
    refine ⟨h0, ?_⟩
    unfold listCandidates
    rw [h0]
    rfl
  · intro b hb
    exact ⟨groupRows_eq_tupleRows hb, window_cap_core rows g⟩

/-- C9 amended, instantiated on the NULL-branch group gW (nothing selected
from its 11 records) and on the branch-"master" group gW2 (10 of its 11
records selected). -/
theorem c9_amended_witness :
    (gW.branch = none ∧ groupRows rowsW gW = [] ∧ listCandidates rowsW gW = [])
    ∧ (gW2.branch = some sBr ∧ 10 < (groupRows rowsW2 gW2).length
       ∧ groupRows rowsW2 gW2 = tupleRows rowsW2 gW2
       ∧ (listCandidates rowsW2 gW2).length = 10) := by
  have h1 := (c9_amended rowsW gW).1 rfl
  have h2 := (c9_amended rowsW2 gW2).2 sBr rfl
  exact ⟨⟨rfl, h1.1, h1.2⟩, ⟨rfl, by decide, h2.1, (h2.2 (by decide)).1⟩⟩

/-- C10: under distinct skeleton stage ids and distinct dynamic entry ids,
every dynamic stage entry that matches a skeleton stage by id leaves, in the
rebuilt stage list, a stage carrying exactly the jobs rebuilt from that
entry's builds (prior job lists replaced, not merged), with every attached
job enabled. -/
theorem c10_replace_jobs (pbID : Int) (now : Nat) (ss ss' : List Stage) (es : List Json)
    (e : Json) (sid : Int) (builds : List Json) (jobs : List PipelineBuildJob)
    (hdist : ss.Pairwise (fun a b => a.id ≠ b.id))
    (hedist : es.Pairwise (fun a b => stageEntryId a ≠ stageEntryId b))
    (he : e ∈ es)
    (hsid : stageEntryId e = some sid)
    (hbuilds : stageEntryBuilds e = some builds)
    (hjobs : buildsToJobs pbID now builds = .ok jobs)
    (hok : rebuildStages pbID now ss es = .ok ss') :
    (∃ t ∈ ss', t.id = sid ∧ t.pipelineBuildJobs = jobs ∧ t.jobs = jobs.map (·.job))
    ∧ ∀ j ∈ jobs, j.job.enabled = true := by
  refine ⟨?_, buildsToJobs_enabled hjobs⟩
  induction es generalizing ss with
  | nil => cases he
  | cons e0 rest ihes =>
    simp only [rebuildStages] at hok
    rcases hps : processStageEntry pbID now ss e0 with er | ss1 <;> simp only [hps] at hok
    · cases hok
    rcases List.pairwise_cons.mp hedist with ⟨hehead, hetail⟩
    rcases processStageEntry_ok_inv hps with ⟨sid0, b0, j0, hsid0, hb0, hj0, hany0, rfl⟩
    rcases List.mem_cons.mp he with rfl | herest
    · have hsideq : sid0 = sid := by
        rw [hsid0] at hsid
        exact Option.some.inj hsid
      subst hsideq
      have hbeq : b0 = builds := by
        rw [hb0] at hbuilds
        exact Option.some.inj hbuilds
      subst hbeq
      have hjeq : j0 = jobs := by
        rw [hj0] at hjobs
        exact (Except.ok.inj hjobs)
      subst hjeq
      have hmem : ∃ s ∈ ss, s.id = sid0 := (anyId_true_iff ss sid0).mp hany0
      rcases @resetAndAttach_attaches ss sid0 j0 hdist hmem with ⟨t, htmem, htid, htpb, htjobs⟩
      refine ⟨t, rebuildStages_preserves hok htmem ?_, htid, htpb, htjobs⟩
      intro e' he' hcontra
      exact (hehead e' he') (by rw [hsid0, hcontra, htid])
    · exact ihes (resetAndAttach ss sid0 j0) (pairwise_id_resetAndAttach hdist)
        hetail herest hok

/-- C10 instantiated: a skeleton whose id-1 stage already carries two
decoded jobs is rebuilt against one dynamic entry for stage 1 with a single
build; the resulting stage holds exactly that one (enabled) job. -/
theorem c10_replace_jobs_witness :
    ((stageEntryId exStageEntry = some 1)
     ∧ buildsToJobs 42 0 [exJobEntry] = .ok [exPBJob]
     ∧ rebuildStages 42 0 [stW1, stW2] [exStageEntry] = .ok [stW1', stW2])
    ∧ ((∃ t ∈ [stW1', stW2], t.id = 1 ∧ t.pipelineBuildJobs = [exPBJob]
          ∧ t.jobs = [exPBJob].map (·.job))
       ∧ ∀ j ∈ [exPBJob], j.job.enabled = true) :=
  ⟨⟨rfl, rfl, rfl⟩,
   c10_replace_jobs 42 0 [stW1, stW2] [stW1', stW2] [exStageEntry] exStageEntry 1
     [exJobEntry] [exPBJob] (by decide) (by simp)
     (List.mem_singleton.mpr rfl) rfl rfl rfl rfl⟩
